import Mathlib

/-!
Verification of the WebChat repository's message-relay, conversation-store and
auth behaviour.  The repository contains two variants of the chat flow:

* a Postgres/Express backend (`src/backend/server.js`) with socket.io fan-out;
* a Firebase/Next.js client (`src/components/chat/ChatArea.tsx`,
  the chat page and the n8n proxy route under `src/unnamed/`).

Both variants are embedded shallowly below: pure logic becomes Lean functions,
the database becomes explicit state records, and the external webhook call
becomes an explicit outcome parameter (it is an opaque network effect).
`JSON.parse` / `JSON.stringify` / `bcrypt` are external library calls: parsing
results and password checks are passed in as parameters, while `stringify`
(whose output the code stores verbatim) is reimplemented faithfully.
-/

namespace WebChat

/-- A JavaScript JSON value, as produced by `JSON.parse`. -/
inductive JsonValue where
  | jstr (s : String)
  | jnum (n : Int)
  | jbool (b : Bool)
  | jnull
  | jarr (elems : List JsonValue)
  | jobj (fields : List (String × JsonValue))

/-- JavaScript truthiness of a JSON value (`if (v)`): empty string, zero,
`false` and `null` are falsy; objects and arrays are always truthy. -/
def JsonValue.truthy : JsonValue → Bool
  | .jstr s => !(s == "")
  | .jnum n => !(n == 0)
  | .jbool b => b
  | .jnull => false
  | .jarr _ => true
  | .jobj _ => true

/-- JavaScript property access `data.k`: `some` the field value on an object
that has the key, `none` (i.e. `undefined`) otherwise. -/
def jsGet (data : JsonValue) (k : String) : Option JsonValue :=
  match data with
  | .jobj fields => fields.lookup k
  | _ => none

/-- Truthiness of a possibly-`undefined` JavaScript value. -/
def jsTruthy (v : Option JsonValue) : Bool :=
  match v with
  | none => false
  | some v => v.truthy

/-- JSON string escaping used by `JSON.stringify` (quote and backslash; the
inputs appearing in this development contain no control characters). -/
def escapeJsonChar (c : Char) : String :=
  if c = '"' then "\\\"" else if c = '\\' then "\\\\" else String.singleton c

def escapeJsonString (s : String) : String :=
  String.join (s.toList.map escapeJsonChar)

mutual

/-- Compact `JSON.stringify(v)` (no spacing), as used by the n8n route's
fallback branch. -/
def jsonStringify : JsonValue → String
  | .jstr s => "\"" ++ escapeJsonString s ++ "\""
  | .jnum n => toString n
  | .jbool b => if b then "true" else "false"
  | .jnull => "null"
  | .jarr es => "[" ++ jsonStringifyElems es ++ "]"
  | .jobj fs => "\x7b" ++ jsonStringifyFields fs ++ "\x7d"

def jsonStringifyElems : List JsonValue → String
  | [] => ""
  | [e] => jsonStringify e
  | e :: e2 :: rest => jsonStringify e ++ "," ++ jsonStringifyElems (e2 :: rest)

def jsonStringifyFields : List (String × JsonValue) → String
  | [] => ""
  | [(k, v)] => "\"" ++ escapeJsonString k ++ "\":" ++ jsonStringify v
  | (k, v) :: f2 :: rest =>
    "\"" ++ escapeJsonString k ++ "\":" ++ jsonStringify v ++ "," ++
      jsonStringifyFields (f2 :: rest)

end

def spacesStr (n : Nat) : String := String.mk (List.replicate n ' ')

mutual

/-- Indented `JSON.stringify(v, null, 2)`, as used by the backend's
`botMessageText` fallback branch; `ind` is the current indentation. -/
def jsonStringify2 (ind : Nat) : JsonValue → String
  | .jstr s => "\"" ++ escapeJsonString s ++ "\""
  | .jnum n => toString n
  | .jbool b => if b then "true" else "false"
  | .jnull => "null"
  | .jarr [] => "[]"
  | .jarr (e :: es) =>
    "[\n" ++ jsonStringify2Elems (ind + 2) (e :: es) ++ "\n" ++ spacesStr ind ++ "]"
  | .jobj [] => "\x7b\x7d"
  | .jobj (f :: fs) =>
    "\x7b\n" ++ jsonStringify2Fields (ind + 2) (f :: fs) ++ "\n" ++ spacesStr ind ++ "\x7d"

def jsonStringify2Elems (ind : Nat) : List JsonValue → String
  | [] => ""
  | [e] => spacesStr ind ++ jsonStringify2 ind e
  | e :: e2 :: rest =>
    spacesStr ind ++ jsonStringify2 ind e ++ ",\n" ++ jsonStringify2Elems ind (e2 :: rest)

def jsonStringify2Fields (ind : Nat) : List (String × JsonValue) → String
  | [] => ""
  | [(k, v)] => spacesStr ind ++ "\"" ++ escapeJsonString k ++ "\": " ++ jsonStringify2 ind v
  | (k, v) :: f2 :: rest =>
    spacesStr ind ++ "\"" ++ escapeJsonString k ++ "\": " ++ jsonStringify2 ind v ++ ",\n" ++
      jsonStringify2Fields ind (f2 :: rest)

end

/-- Response-text extraction of the n8n proxy route (`src/unnamed/part_007`):
`rawText` is the raw upstream body and `parsed` the result of `JSON.parse`
on it (`none` when parsing throws).  Mirrors the if/else chain of the source:
bare string, then the fields `responseBody`, `redacted`, `message`, `output`,
`text`, else `JSON.stringify` of the whole object; non-JSON bodies verbatim. -/
def n8nResponseText (rawText : String) (parsed : Option JsonValue) : JsonValue :=
  match parsed with
  | none => .jstr rawText
  | some data =>
    match data with
    | .jstr s => .jstr s
    | _ =>
      if jsTruthy (jsGet data "responseBody") then (jsGet data "responseBody").getD .jnull
      else if jsTruthy (jsGet data "redacted") then (jsGet data "redacted").getD .jnull
      else if jsTruthy (jsGet data "message") then (jsGet data "message").getD .jnull
      else if jsTruthy (jsGet data "output") then (jsGet data "output").getD .jnull
      else if jsTruthy (jsGet data "text") then (jsGet data "text").getD .jnull
      else .jstr (jsonStringify data)

/-- Field priority order probed by the n8n route. -/
def n8nFieldOrder : List String := ["responseBody", "redacted", "message", "output", "text"]

/-- Modelled from the spec: "a small ordered list of named extractors tried in
sequence, each returning an optional match; first match wins" — the spec-side
formulation of field probing, to be compared with `n8nResponseText`. -/
def probeFieldsSpec (data : JsonValue) : List String → Option JsonValue
  | [] => none
  | k :: rest =>
    match jsGet data k with
    | some v => if v.truthy then some v else probeFieldsSpec data rest
    | none => probeFieldsSpec data rest

/-- Bot-message extraction of the backend (`src/backend/server.js`
`botMessageText`): a bare string verbatim, else `webhookResponse.text`,
else `webhookResponse.response`, else `JSON.stringify(webhookResponse, null, 2)`. -/
def serverBotMessageText (webhookResponse : JsonValue) : JsonValue :=
  match webhookResponse with
  | .jstr s => .jstr s
  | _ =>
    if jsTruthy (jsGet webhookResponse "text") then (jsGet webhookResponse "text").getD .jnull
    else if jsTruthy (jsGet webhookResponse "response") then
      (jsGet webhookResponse "response").getD .jnull
    else .jstr (jsonStringify2 0 webhookResponse)

/-! ### Client chat flow (`ChatArea.tsx` of both Firebase variants) -/

inductive Role where
  | user
  | assistant
deriving DecidableEq, Repr

structure ClientMessage where
  role : Role
  content : String
  createdAt : Nat
deriving DecidableEq, Repr

structure Conversation where
  title : String
  updatedAt : Nat
  messages : List ClientMessage
deriving DecidableEq, Repr

/-- Observable steps of one send, in the order they are performed. -/
inductive SendEvent where
  | persistUser
  | titleUpdate
  | bumpUpdatedAt
  | webhookCall
  | persistAssistant
deriving DecidableEq, Repr

/-- Outcome of `sendMessageToN8n`: a reply string, or a thrown error
(network failure, timeout, or non-OK proxy status). -/
inductive WebhookOutcome where
  | ok (response : String)
  | fail
deriving DecidableEq, Repr

/-- The fixed fallback assistant content written by the catch branch of
`handleSubmit`. -/
def fallbackMessage : String := "Sorry, an error occurred. Please try again."

/-- JavaScript `String.prototype.trim()`: strip leading and trailing
whitespace. -/
def jsTrim (s : String) : String :=
  String.mk (((s.toList.dropWhile Char.isWhitespace).reverse.dropWhile
    Char.isWhitespace).reverse)

/-- Title derivation of `updateConversationTitle`
(`firstMessage.slice(0, 50) + (firstMessage.length > 50 ? "..." : "")`). -/
def deriveTitle (s : String) : String :=
  s.take 50 ++ (if 50 < s.length then "..." else "")

/-- `handleSubmit` of `ChatArea.tsx`: guard on trimmed input, persist the user
message, derive the title when the conversation had no messages, bump
`updatedAt`, call the webhook, then persist the assistant message — the real
reply on success, the fixed fallback when the call throws.  `now` stands for
the server-assigned timestamp of this send.  Returns the updated conversation
and the ordered list of performed steps. -/
def handleSubmit (input : String) (conv : Conversation) (now : Nat)
    (outcome : WebhookOutcome) : Conversation × List SendEvent :=
  if jsTrim input = "" then (conv, [])
  else
    let userMessage := jsTrim input
    let conv1 : Conversation :=
      { conv with messages := conv.messages ++ [⟨.user, userMessage, now⟩] }
    let step2 : Conversation × List SendEvent :=
      if conv.messages = [] then
        ({ conv1 with title := deriveTitle userMessage, updatedAt := now },
         [SendEvent.titleUpdate])
      else (conv1, [])
    let conv2 := { step2.1 with updatedAt := now }
    let step3 : Conversation × List SendEvent :=
      match outcome with
      | .ok r =>
        ({ conv2 with messages := conv2.messages ++ [⟨.assistant, r, now⟩] },
         [SendEvent.webhookCall, SendEvent.persistAssistant])
      | .fail =>
        ({ conv2 with messages := conv2.messages ++ [⟨.assistant, fallbackMessage, now⟩] },
         [SendEvent.webhookCall, SendEvent.persistAssistant])
    (step3.1,
     [SendEvent.persistUser] ++ step2.2 ++ [SendEvent.bumpUpdatedAt] ++ step3.2)

/-! ### Backend chat flow (`src/backend/server.js`) -/

structure Session where
  id : Nat
  userId : Nat
  sessionName : String
  isActive : Bool
  updatedAt : Nat
deriving DecidableEq, Repr

inductive MessageType where
  | user
  | bot
deriving DecidableEq, Repr

/-- A row of the `messages` table.  `messageText` is a JS value because the
backend stores whatever `botMessageText` evaluates to. -/
structure ServerMessage where
  sessionId : Nat
  userId : Nat
  messageText : JsonValue
  messageType : MessageType
  webhookResponse : Option JsonValue
  responseTimeMs : Option Nat
  createdAt : Nat

structure ServerState where
  sessions : List Session
  messages : List ServerMessage

/-- Outcome of the axios webhook call: with `validateStatus: status < 500`
every response below 500 resolves with its parsed body; network failures,
timeouts and 5xx statuses throw. -/
inductive ServerWebhookOutcome where
  | resolved (data : JsonValue) (elapsedMs : Nat)
  | failed (elapsedMs : Nat)

inductive ApiResult where
  | badRequest
  | notFound
  | ok (userMessage : ServerMessage) (webhookResponse : Option JsonValue)

/-- The `webhookResponse` object set by the backend's catch branch. -/
def webhookErrorObj : JsonValue :=
  .jobj [("error", .jstr "Failed to get response from webhook")]

/-- `POST /api/chat/message`: validate presence of session id and message,
check the session belongs to the caller and is active, insert the user
message, then (when the webhook is enabled) perform the webhook call —
inserting a bot message only when the call resolves — and finally bump the
session's `updated_at`. -/
def sendMessage (st : ServerState) (callerId : Nat) (sessionId : Option Nat)
    (message : String) (webhookEnabled : Bool) (outcome : ServerWebhookOutcome)
    (now : Nat) : ServerState × ApiResult × List SendEvent :=
  match sessionId with
  | none => (st, .badRequest, [])
  | some sid =>
    if message = "" then (st, .badRequest, [])
    else
      match st.sessions.find? (fun s => s.id == sid && s.userId == callerId && s.isActive) with
      | none => (st, .notFound, [])
      | some _ =>
        let userMsg : ServerMessage := ⟨sid, callerId, .jstr message, .user, none, none, now⟩
        let st1 : ServerState := { st with messages := st.messages ++ [userMsg] }
        let step2 : ServerState × Option JsonValue × List SendEvent :=
          if webhookEnabled then
            match outcome with
            | .resolved data t =>
              let botMsg : ServerMessage :=
                ⟨sid, callerId, serverBotMessageText data, .bot, some data, some t, now + 1⟩
              ({ st1 with messages := st1.messages ++ [botMsg] }, some data,
               [SendEvent.webhookCall, SendEvent.persistAssistant])
            | .failed _ =>
              (st1, some webhookErrorObj, [SendEvent.webhookCall])
          else (st1, none, [])
        let bump : Session → Session :=
          fun s => if s.id == sid then { s with updatedAt := now + 2 } else s
        let st3 : ServerState := { step2.1 with sessions := step2.1.sessions.map bump }
        (st3, .ok userMsg step2.2.1,
         [SendEvent.persistUser] ++ step2.2.2 ++ [SendEvent.bumpUpdatedAt])

inductive DeleteResult where
  | notFound
  | success
deriving DecidableEq, Repr

/-- `DELETE /api/chat/sessions/:sessionId`: soft-delete
(`UPDATE ... SET is_active = false WHERE id AND user_id AND is_active`);
404 when no row matched. -/
def deleteSession (st : ServerState) (callerId sid now : Nat) :
    ServerState × DeleteResult :=
  if (st.sessions.find? (fun s => s.id == sid && s.userId == callerId && s.isActive)).isSome then
    ({ st with sessions := st.sessions.map (fun s =>
        if s.id == sid && s.userId == callerId && s.isActive then
          { s with isActive := false, updatedAt := now }
        else s) },
     .success)
  else (st, .notFound)

/-- Descending creation-time order used by the messages query
(`ORDER BY created_at DESC`). -/
def createdDesc (a b : ServerMessage) : Prop := b.createdAt ≤ a.createdAt

instance : DecidableRel createdDesc := fun a b => Nat.decLe b.createdAt a.createdAt

instance : IsTotal ServerMessage createdDesc :=
  ⟨fun a b => Nat.le_total b.createdAt a.createdAt⟩

instance : IsTrans ServerMessage createdDesc :=
  ⟨fun _ _ _ h1 h2 => Nat.le_trans h2 h1⟩

/-- The messages query of `GET /api/chat/sessions/:sessionId/messages`:
filter by session, `ORDER BY created_at DESC`, `LIMIT limit OFFSET
(page-1)*limit`, then `.reverse()` before responding. -/
def listMessages (msgs : List ServerMessage) (sid page limit : Nat) :
    List ServerMessage :=
  let filtered := msgs.filter (fun m => m.sessionId == sid)
  let sorted := filtered.insertionSort createdDesc
  (((sorted.drop ((page - 1) * limit)).take limit)).reverse

inductive MessagesResult where
  | notFound
  | ok (msgs : List ServerMessage)

/-- `GET /api/chat/sessions/:sessionId/messages`: ownership check
(`WHERE id = $1 AND user_id = $2`), then the paginated query. -/
def getMessages (st : ServerState) (callerId sid page limit : Nat) :
    MessagesResult :=
  match st.sessions.find? (fun s => s.id == sid && s.userId == callerId) with
  | none => .notFound
  | some _ => .ok (listMessages st.messages sid page limit)

/-! ### Auth gate (`src/backend/server.js` login, resend-verification) -/

structure User where
  id : Nat
  email : String
  passwordHash : String
  emailVerified : Bool
  isActive : Bool
deriving DecidableEq, Repr

inductive LoginResult where
  | badRequest
  | invalidCredentials
  | emailNotVerified
  | success (userId : Nat)
deriving DecidableEq, Repr

/-- `POST /api/auth/login`: presence validation, user lookup restricted to
active accounts, the email-verification gate, then `bcrypt.compare` (passed
in as `checkPassword`, an external library call) and token issuance
(`success` carries the signed token's user id). -/
def login (requireEmailVerification : Bool) (users : List User)
    (checkPassword : String → String → Bool) (email password : String) : LoginResult :=
  if email = "" || password = "" then .badRequest
  else
    match users.find? (fun u => u.email == email && u.isActive) with
    | none => .invalidCredentials
    | some user =>
      if requireEmailVerification && !user.emailVerified then .emailNotVerified
      else if !(checkPassword password user.passwordHash) then .invalidCredentials
      else .success user.id

structure VerificationToken where
  userId : Nat
  token : String
  expiresAt : Nat
  used : Bool
deriving DecidableEq, Repr

inductive ResendResult where
  | badRequest
  | notFound
  | alreadyVerified
  | emailSendFailed
  | success
deriving DecidableEq, Repr

/-- `POST /api/auth/resend-verification`: look up the active user, refuse
already-verified accounts, delete every unused token of the user, insert one
fresh unused token, then send the email (`emailSent` is the external email
service's outcome; the token writes are not transactional, so they persist
even when sending fails and the route answers 500). -/
def resendVerification (users : List User) (tokens : List VerificationToken)
    (email : String) (newToken : String) (expiresAt : Nat) (emailSent : Bool) :
    List VerificationToken × ResendResult :=
  if email = "" then (tokens, .badRequest)
  else
    match users.find? (fun u => u.email == email && u.isActive) with
    | none => (tokens, .notFound)
    | some user =>
      if user.emailVerified then (tokens, .alreadyVerified)
      else
        let cleaned := tokens.filter (fun t => !(t.userId == user.id && !t.used))
        let updated := cleaned ++ [⟨user.id, newToken, expiresAt, false⟩]
        if emailSent then (updated, .success) else (updated, .emailSendFailed)

/-! ### Theorems -/

theorem string_take_of_length_le (s : String) (n : Nat) (h : s.length ≤ n) :
    s.take n = s := by
  rw [String.take_eq, List.take_of_length_le h]

/-- C7: the auto-derived title equals the message text when it has at most 50
characters, and otherwise the first 50 characters followed by "..."; in the
client flow the derivation runs exactly when the conversation had no
messages, and otherwise the title is left unchanged. -/
theorem title_derivation_correct :
    (∀ s : String, s.length ≤ 50 → deriveTitle s = s)
    ∧ (∀ s : String, 50 < s.length → deriveTitle s = s.take 50 ++ "...")
    ∧ (∀ (input : String) (conv : Conversation) (now : Nat) (outcome : WebhookOutcome),
        jsTrim input ≠ "" →
        (conv.messages = [] →
          (handleSubmit input conv now outcome).1.title = deriveTitle (jsTrim input)
          ∧ SendEvent.titleUpdate ∈ (handleSubmit input conv now outcome).2)
        ∧ (conv.messages ≠ [] →
          (handleSubmit input conv now outcome).1.title = conv.title
          ∧ SendEvent.titleUpdate ∉ (handleSubmit input conv now outcome).2)) := by
  refine ⟨fun s h => ?_, fun s h => ?_, fun input conv now outcome htrim => ?_⟩
  · rw [deriveTitle, if_neg (by omega), string_take_of_length_le s 50 h,
      String.append_empty]
  · rw [deriveTitle, if_pos h]
  · constructor
    · intro hm
      cases outcome <;>
        simp [handleSubmit, htrim, hm]
    · intro hm
      cases outcome <;>
        simp [handleSubmit, htrim, hm]

theorem title_derivation_correct_witness :
    deriveTitle "hello" = "hello"
    ∧ (handleSubmit "hello" ⟨"New Chat", 0, []⟩ 5 .fail).1.title = deriveTitle "hello" := by
  have h := title_derivation_correct
  refine ⟨h.1 "hello" (by decide), ?_⟩
  have h3 := (h.2.2 "hello" ⟨"New Chat", 0, []⟩ 5 .fail (by decide)).1 rfl
  simpa using h3.1

/-- C8: with email verification required, logging in to an existing active
but unverified account yields the distinguishable `emailNotVerified` outcome
(never `invalidCredentials`) and no session token is produced. -/
theorem login_unverified_fails_distinguishably
    (users : List User) (checkPassword : String → String → Bool)
    (email password : String) (user : User)
    (hemail : email ≠ "") (hpass : password ≠ "")
    (hfind : users.find? (fun u => u.email == email && u.isActive) = some user)
    (hver : user.emailVerified = false) :
    login true users checkPassword email password = .emailNotVerified
    ∧ ∀ uid, login true users checkPassword email password ≠ .success uid := by
  have hl : login true users checkPassword email password = .emailNotVerified := by
    unfold login
    rw [if_neg (by simp [hemail, hpass]), hfind]
    simp [hver]
  exact ⟨hl, fun uid h => by rw [hl] at h; exact LoginResult.noConfusion h⟩

theorem login_unverified_fails_distinguishably_witness :
    login true [⟨1, "a@b.co", "h", false, true⟩] (fun _ _ => true) "a@b.co" "pw"
      = .emailNotVerified := by
  exact (login_unverified_fails_distinguishably
    [⟨1, "a@b.co", "h", false, true⟩] (fun _ _ => true) "a@b.co" "pw"
    ⟨1, "a@b.co", "h", false, true⟩ (by decide) (by decide) (by decide) rfl).1

/-- C9: with email verification required, the login outcome for an existing
active unverified account is independent of the supplied password: any two
provided passwords — and even any two password-hash comparison functions —
yield the same `emailNotVerified` outcome, because the verification gate is
checked before the password comparison. -/
theorem login_unverified_independent_of_password
    (users : List User) (check1 check2 : String → String → Bool)
    (email p1 p2 : String) (user : User)
    (hemail : email ≠ "") (hp1 : p1 ≠ "") (hp2 : p2 ≠ "")
    (hfind : users.find? (fun u => u.email == email && u.isActive) = some user)
    (hver : user.emailVerified = false) :
    login true users check1 email p1 = login true users check2 email p2
    ∧ login true users check1 email p1 = .emailNotVerified := by
  have h1 : login true users check1 email p1 = .emailNotVerified := by
    unfold login
    rw [if_neg (by simp [hemail, hp1]), hfind]
    simp [hver]
  have h2 : login true users check2 email p2 = .emailNotVerified := by
    unfold login
    rw [if_neg (by simp [hemail, hp2]), hfind]
    simp [hver]
  exact ⟨h1.trans h2.symm, h1⟩

theorem login_unverified_independent_of_password_witness :
    login true [⟨1, "a@b.co", "h", false, true⟩] (fun p h => p ++ "s" == h) "a@b.co" "right"
      = login true [⟨1, "a@b.co", "h", false, true⟩] (fun _ _ => false) "a@b.co" "wrong" := by
  exact (login_unverified_independent_of_password
    [⟨1, "a@b.co", "h", false, true⟩] (fun p h => p ++ "s" == h) (fun _ _ => false)
    "a@b.co" "right" "wrong"
    ⟨1, "a@b.co", "h", false, true⟩ (by decide) (by decide) (by decide) (by decide) rfl).1

/-- C10: after a successful resend-verification, the user has exactly one
unused verification token — all previously unused tokens were deleted before
the single new token was inserted — and every unused token of the user in the
resulting store is the freshly inserted one. -/
theorem resend_verification_single_unused_token
    (users : List User) (tokens : List VerificationToken)
    (email newToken : String) (expiresAt : Nat) (user : User)
    (hemail : email ≠ "")
    (hfind : users.find? (fun u => u.email == email && u.isActive) = some user)
    (hver : user.emailVerified = false) :
    (resendVerification users tokens email newToken expiresAt true).2 = .success
    ∧ ((resendVerification users tokens email newToken expiresAt true).1.countP
        (fun t => t.userId == user.id && !t.used)) = 1
    ∧ ∀ t ∈ (resendVerification users tokens email newToken expiresAt true).1,
        t.userId = user.id → t.used = false → t = ⟨user.id, newToken, expiresAt, false⟩ := by
  have hres : resendVerification users tokens email newToken expiresAt true
      = (tokens.filter (fun t => !(t.userId == user.id && !t.used))
          ++ [⟨user.id, newToken, expiresAt, false⟩], .success) := by
    unfold resendVerification
    rw [if_neg (by simp [hemail]), hfind]
    simp [hver]
  rw [hres]
  refine ⟨rfl, ?_, ?_⟩
  · rw [List.countP_append]
    have hzero : (tokens.filter (fun t => !(t.userId == user.id && !t.used))).countP
        (fun t => t.userId == user.id && !t.used) = 0 := by
      rw [List.countP_eq_zero]
      intro t ht
      have := List.of_mem_filter ht
      simp only [Bool.not_eq_true'] at this
      simp [this]
    rw [hzero]
    simp [List.countP_cons]
  · intro t ht hid hused
    rcases List.mem_append.mp ht with hmem | hmem
    · have := List.of_mem_filter hmem
      rw [hid, hused] at this
      simp at this
    · simpa using hmem

theorem resend_verification_single_unused_token_witness :
    ((resendVerification [⟨1, "a@b.co", "h", false, true⟩]
        [⟨1, "old1", 7, false⟩, ⟨1, "old2", 8, false⟩, ⟨1, "old0", 2, true⟩, ⟨2, "x", 9, false⟩]
        "a@b.co" "fresh" 99 true).1.countP
      (fun t => t.userId == 1 && !t.used)) = 1 := by
  exact (resend_verification_single_unused_token
    [⟨1, "a@b.co", "h", false, true⟩]
    [⟨1, "old1", 7, false⟩, ⟨1, "old2", 8, false⟩, ⟨1, "old0", 2, true⟩, ⟨2, "x", 9, false⟩]
    "a@b.co" "fresh" 99 ⟨1, "a@b.co", "h", false, true⟩ (by decide) (by decide) rfl).2.1

/-- A one-session server state used for concrete evaluations: session 1 is
owned by user 1 and active, and no messages are stored yet. -/
def st0 : ServerState := ⟨[⟨1, 1, "s", true, 0⟩], []⟩

def conv0 : Conversation := ⟨"New Chat", 0, []⟩

/-- C1: in both chat flows a send of non-empty text to an existing
conversation persists the user message strictly before the webhook call is
attempted, and the user message is in the store afterwards whatever the
webhook outcome — in particular when the webhook fails. -/
theorem user_message_persisted_before_webhook
    (input : String) (conv : Conversation) (now : Nat) (outcome : WebhookOutcome)
    (st : ServerState) (callerId sid : Nat) (message : String)
    (soutcome : ServerWebhookOutcome) (snow : Nat) (sess : Session)
    (htrim : jsTrim input ≠ "") (hmsg : message ≠ "")
    (hfind : st.sessions.find?
      (fun s => s.id == sid && s.userId == callerId && s.isActive) = some sess) :
    (List.Sublist [SendEvent.persistUser, SendEvent.webhookCall]
        (handleSubmit input conv now outcome).2
      ∧ (⟨.user, jsTrim input, now⟩ : ClientMessage)
          ∈ (handleSubmit input conv now outcome).1.messages)
    ∧ (List.Sublist [SendEvent.persistUser, SendEvent.webhookCall]
        (sendMessage st callerId (some sid) message true soutcome snow).2.2
      ∧ (⟨sid, callerId, .jstr message, .user, none, none, snow⟩ : ServerMessage)
          ∈ (sendMessage st callerId (some sid) message true soutcome snow).1.messages) := by
  constructor
  · constructor
    · by_cases hm : conv.messages = [] <;> cases outcome <;>
        simp [handleSubmit, htrim, hm]
    · by_cases hm : conv.messages = [] <;> cases outcome <;>
        simp [handleSubmit, htrim, hm]
  · cases soutcome <;>
      simp [sendMessage, htrim, hmsg, hfind]

theorem user_message_persisted_before_webhook_witness :
    (⟨.user, "hi", 3⟩ : ClientMessage) ∈ (handleSubmit "hi" conv0 3 .fail).1.messages
    ∧ (⟨1, 1, .jstr "hi", .user, none, none, 7⟩ : ServerMessage)
        ∈ (sendMessage st0 1 (some 1) "hi" true (.failed 2) 7).1.messages := by
  have h := user_message_persisted_before_webhook "hi" conv0 3 .fail
    st0 1 1 "hi" (.failed 2) 7 ⟨1, 1, "s", true, 0⟩ (by decide) (by decide) rfl
  exact ⟨h.1.2, h.2.2⟩

/-- C2 counterexample: in the backend flow a send whose webhook call fails
persists no assistant message at all — the webhook call is attempted
(and the fallback error object is returned), yet the stored messages contain
no bot message, contradicting the claim that an assistant message with the
fixed fallback content is persisted. -/
theorem backend_webhook_failure_persists_no_assistant :
    SendEvent.webhookCall ∈ (sendMessage st0 1 (some 1) "hello" true (.failed 3) 10).2.2
    ∧ ((sendMessage st0 1 (some 1) "hello" true (.failed 3) 10).1.messages.countP
        (fun m => m.messageType == .bot)) = 0 := by
  constructor
  · simp [sendMessage, st0]
  · rfl

/-- C2 (amended): in the client chat flow a failing webhook call persists an
assistant message whose content is exactly the fixed fallback string; in the
backend flow a failing webhook call persists no assistant message for that
send — only the user message is appended — and the request still answers
`ok` carrying an error object as the webhook response. -/
theorem webhook_failure_fallback
    (input : String) (conv : Conversation) (now : Nat)
    (st : ServerState) (callerId sid : Nat) (message : String)
    (t snow : Nat) (sess : Session)
    (htrim : jsTrim input ≠ "") (hmsg : message ≠ "")
    (hfind : st.sessions.find?
      (fun s => s.id == sid && s.userId == callerId && s.isActive) = some sess) :
    (handleSubmit input conv now .fail).1.messages
      = conv.messages
        ++ [⟨.user, jsTrim input, now⟩, ⟨.assistant, fallbackMessage, now⟩]
    ∧ (sendMessage st callerId (some sid) message true (.failed t) snow).1.messages
      = st.messages ++ [⟨sid, callerId, .jstr message, .user, none, none, snow⟩]
    ∧ (sendMessage st callerId (some sid) message true (.failed t) snow).2.1
      = .ok ⟨sid, callerId, .jstr message, .user, none, none, snow⟩ (some webhookErrorObj) := by
  refine ⟨?_, ?_, ?_⟩
  · by_cases hm : conv.messages = [] <;> simp [handleSubmit, htrim, hm]
  · simp [sendMessage, hmsg, hfind]
  · simp [sendMessage, hmsg, hfind]

theorem webhook_failure_fallback_witness :
    (handleSubmit "hi" conv0 3 .fail).1.messages
      = [⟨.user, "hi", 3⟩, ⟨.assistant, fallbackMessage, 3⟩]
    ∧ (sendMessage st0 1 (some 1) "hi" true (.failed 2) 7).1.messages
      = [⟨1, 1, .jstr "hi", .user, none, none, 7⟩] := by
  have h := webhook_failure_fallback "hi" conv0 3 st0 1 1 "hi" 2 7
    ⟨1, 1, "s", true, 0⟩ (by decide) (by decide) rfl
  exact ⟨h.1, h.2.1⟩

/-- C6 counterexample: `" "` is whitespace-only, yet the backend's validation
(`!sessionId || !message`, which only rejects the empty string) lets it
through and a user message is persisted, contradicting the claim that
whitespace-only text is rejected before any persistence. -/
theorem backend_persists_whitespace_only_message :
    jsTrim " " = ""
    ∧ ((sendMessage st0 1 (some 1) " " false (.failed 0) 10).1.messages.countP
        (fun m => m.messageType == .user)) = 1 := by
  exact ⟨rfl, rfl⟩

/-- C6 (amended): empty message text is rejected before any persistence in
both flows — the client additionally rejects whitespace-only text, returning
with no write and no event — while the backend accepts any non-empty text,
including whitespace-only text, and persists it as a user message. -/
theorem empty_text_rejected_before_persistence :
    (∀ (input : String) (conv : Conversation) (now : Nat) (outcome : WebhookOutcome),
      jsTrim input = "" → handleSubmit input conv now outcome = (conv, []))
    ∧ (∀ (st : ServerState) (callerId : Nat) (sid : Option Nat) (enabled : Bool)
        (outcome : ServerWebhookOutcome) (now : Nat),
      sendMessage st callerId sid "" enabled outcome now = (st, .badRequest, []))
    ∧ (∀ (st : ServerState) (callerId sid : Nat) (message : String)
        (enabled : Bool) (outcome : ServerWebhookOutcome) (now : Nat) (sess : Session),
      message ≠ "" →
      st.sessions.find?
        (fun s => s.id == sid && s.userId == callerId && s.isActive) = some sess →
      (⟨sid, callerId, .jstr message, .user, none, none, now⟩ : ServerMessage)
        ∈ (sendMessage st callerId (some sid) message enabled outcome now).1.messages) := by
  refine ⟨?_, ?_, ?_⟩
  · intro input conv now outcome h
    simp [handleSubmit, h]
  · intro st callerId sid enabled outcome now
    cases sid <;> simp [sendMessage]
  · intro st callerId sid message enabled outcome now sess hmsg hfind
    cases enabled <;> cases outcome <;> simp [sendMessage, hmsg, hfind]

theorem empty_text_rejected_before_persistence_witness :
    handleSubmit "  " conv0 0 .fail = (conv0, [])
    ∧ sendMessage st0 1 (some 1) "" true (.failed 0) 0 = (st0, .badRequest, [])
    ∧ (⟨1, 1, .jstr " ", .user, none, none, 4⟩ : ServerMessage)
        ∈ (sendMessage st0 1 (some 1) " " false (.failed 0) 4).1.messages := by
  refine ⟨empty_text_rejected_before_persistence.1 "  " conv0 0 .fail (by decide),
    empty_text_rejected_before_persistence.2.1 st0 1 (some 1) true (.failed 0) 0,
    empty_text_rejected_before_persistence.2.2 st0 1 1 " " false (.failed 0) 4
      ⟨1, 1, "s", true, 0⟩ (by decide) rfl⟩

theorem probeFieldsSpec_cons (data : JsonValue) (k : String) (rest : List String)
    (d : JsonValue) :
    (probeFieldsSpec data (k :: rest)).getD d
      = if jsTruthy (jsGet data k) then (jsGet data k).getD .jnull
        else (probeFieldsSpec data rest).getD d := by
  rcases h : jsGet data k with _ | v
  · simp [probeFieldsSpec, h, jsTruthy]
  · rcases ht : v.truthy <;> simp [probeFieldsSpec, h, jsTruthy, ht]

/-- C3 (amended): the n8n route's extraction maps `{"output": "hi"}` to
exactly `"hi"`, the bare JSON string `"hi"` to `"hi"`, and a non-JSON body to
the raw body verbatim; on any JSON object it probes the field names
`responseBody`, `redacted`, `message`, `output`, `text` in that fixed order —
first present truthy field wins — and serializes the whole object when none
match.  (The backend's own extraction probes `text` then `response` with the
same serialization fallback, but maps `{"output": "hi"}` to the serialized
object, not to `"hi"`.) -/
theorem n8n_extraction_correct :
    (∀ raw : String, n8nResponseText raw (some (.jobj [("output", .jstr "hi")])) = .jstr "hi")
    ∧ (∀ raw : String, n8nResponseText raw (some (.jstr "hi")) = .jstr "hi")
    ∧ n8nResponseText "plain text" none = .jstr "plain text"
    ∧ (∀ (raw : String) (fs : List (String × JsonValue)),
        n8nResponseText raw (some (.jobj fs))
          = (probeFieldsSpec (.jobj fs) n8nFieldOrder).getD
              (.jstr (jsonStringify (.jobj fs)))) := by
  refine ⟨fun raw => rfl, fun raw => rfl, rfl, fun raw fs => ?_⟩
  rw [n8nFieldOrder, probeFieldsSpec_cons, probeFieldsSpec_cons, probeFieldsSpec_cons,
    probeFieldsSpec_cons, probeFieldsSpec_cons]
  simp only [probeFieldsSpec]
  rfl

/-- C3 counterexample: the backend's extraction (`botMessageText` in
`server.js`), applied to the successful upstream JSON object
`{"output": "hi"}`, yields the 2-space-indented serialization of the whole
object, not `"hi"` — so the claim is false of that extraction function. -/
theorem server_extraction_output_not_hi :
    serverBotMessageText (.jobj [("output", .jstr "hi")])
      = .jstr "\x7b\n  \"output\": \"hi\"\n\x7d"
    ∧ serverBotMessageText (.jobj [("output", .jstr "hi")]) ≠ .jstr "hi" := by
  refine ⟨rfl, fun h => ?_⟩
  rw [show serverBotMessageText (.jobj [("output", .jstr "hi")])
      = .jstr "\x7b\n  \"output\": \"hi\"\n\x7d" from rfl] at h
  simp only [JsonValue.jstr.injEq] at h
  exact absurd h (by decide)

/-- Messages used to evaluate `listMessages` concretely: three messages of
session 1 with pairwise distinct creation times. -/
def msgs0 : List ServerMessage :=
  [⟨1, 1, .jstr "a", .user, none, none, 1⟩,
   ⟨1, 1, .jstr "b", .bot, none, none, 2⟩,
   ⟨1, 1, .jstr "c", .user, none, none, 3⟩]

/-- C4: whenever the stored messages of a conversation have pairwise distinct
creation times, `listMessages` returns a strictly ascending-by-creation-time
sequence, for every page and page size. -/
theorem listMessages_strictly_ascending (msgs : List ServerMessage)
    (sid page limit : Nat)
    (hnd : ((msgs.filter (fun m => m.sessionId == sid)).map
      (fun m => m.createdAt)).Nodup) :
    List.Sorted (fun a b => a < b)
      ((listMessages msgs sid page limit).map (fun m => m.createdAt)) := by
  unfold listMessages
  set filtered := msgs.filter (fun m => m.sessionId == sid) with hf
  set sorted := filtered.insertionSort createdDesc with hs
  set taken := (sorted.drop ((page - 1) * limit)).take limit with ht
  have hsub : taken.Sublist sorted :=
    (List.take_sublist _ _).trans (List.drop_sublist _ _)
  have hsorted : List.Sorted createdDesc taken :=
    (List.sorted_insertionSort createdDesc filtered).sublist hsub
  have hndsorted : (sorted.map (fun m => m.createdAt)).Nodup :=
    (((List.perm_insertionSort createdDesc filtered).map _).nodup_iff).mpr hnd
  have hndtaken : (taken.map (fun m => m.createdAt)).Nodup :=
    List.Nodup.sublist (hsub.map _) hndsorted
  have hdesc : (taken.map (fun m => m.createdAt)).Pairwise (fun a b => b ≤ a) :=
    List.pairwise_map.mpr hsorted
  have hstrict : (taken.map (fun m => m.createdAt)).Pairwise (fun a b => b < a) :=
    (hdesc.and hndtaken).imp
      (fun h => lt_of_le_of_ne h.1 (fun heq => h.2 heq.symm))
  rw [List.map_reverse]
  exact List.pairwise_reverse.mpr hstrict

theorem listMessages_strictly_ascending_witness :
    List.Sorted (fun a b => a < b)
      ((listMessages msgs0 1 1 2).map (fun m => m.createdAt)) :=
  listMessages_strictly_ascending msgs0 1 1 2 (by decide)

/-- C5: when every session with the requested id belongs to a user other than
the caller, reading its messages, sending a message into it (which would also
update its `updated_at`), and deleting it all fail with the not-found outcome
— never a distinct forbidden outcome — and leave the stored state unchanged. -/
theorem cross_user_access_not_found
    (st : ServerState) (callerId sid now page limit snow : Nat) (message : String)
    (enabled : Bool) (outcome : ServerWebhookOutcome)
    (hmsg : message ≠ "")
    (hown : ∀ s ∈ st.sessions, s.id = sid → s.userId ≠ callerId) :
    deleteSession st callerId sid now = (st, .notFound)
    ∧ getMessages st callerId sid page limit = .notFound
    ∧ sendMessage st callerId (some sid) message enabled outcome snow
        = (st, .notFound, []) := by
  have hfind1 : st.sessions.find?
      (fun s => s.id == sid && s.userId == callerId && s.isActive) = none := by
    rw [List.find?_eq_none]
    intro s hs
    simp only [Bool.and_eq_true, beq_iff_eq, not_and]
    exact fun h1 _ => hown s hs h1.1 h1.2
  have hfind2 : st.sessions.find? (fun s => s.id == sid && s.userId == callerId) = none := by
    rw [List.find?_eq_none]
    intro s hs
    simp only [Bool.and_eq_true, beq_iff_eq]
    exact fun h => hown s hs h.1 h.2
  refine ⟨?_, ?_, ?_⟩
  · simp [deleteSession, hfind1]
  · simp [getMessages, hfind2]
  · simp [sendMessage, hmsg, hfind1]

theorem cross_user_access_not_found_witness :
    deleteSession ⟨[⟨1, 2, "s", true, 0⟩], []⟩ 1 1 5 = (⟨[⟨1, 2, "s", true, 0⟩], []⟩, .notFound)
    ∧ getMessages ⟨[⟨1, 2, "s", true, 0⟩], []⟩ 1 1 1 50 = .notFound
    ∧ sendMessage ⟨[⟨1, 2, "s", true, 0⟩], []⟩ 1 (some 1) "hi" true (.failed 0) 5
        = (⟨[⟨1, 2, "s", true, 0⟩], []⟩, .notFound, []) :=
  cross_user_access_not_found ⟨[⟨1, 2, "s", true, 0⟩], []⟩ 1 1 5 1 50 5 "hi" true
    (.failed 0) (by decide) (by decide)

end WebChat
